import Mathlib

/-!
NDVI field analyzer — verification of the time-series extraction and charting
pipeline.  Shallow embedding of the client-side pipeline of `src/app.py`:

* the Earth-Engine query post-processing
  `processed_col = s2_col.map(get_area_stats).filter(ee.Filter.notNull(['NDVI_mean']))`
  followed by `reduceColumns(toList(2), ['system:time_start', 'NDVI_mean'])`
  (lines 141–144), which keeps exactly the records whose `NDVI_mean` is non-null
  and projects them to `[timestamp_ms, value]` pairs;
* the emptiness check `if not raw_data` (line 146);
* the dataframe construction, `pd.to_datetime(df['Timestamp'], unit='ms')` and
  `df.sort_values('Date')` (lines 149–151);
* the chart-drawing block (lines 164–228): the one-shot `jp_font` decision,
  the `plt.rcParams.update` global-state mutation, the trace, the `axhline`
  threshold line, title/labels/legend, and `ax.set_ylim(-0.1, 1.0)`.

Python floats are modelled as rationals (`ℚ`), epoch-millisecond timestamps and
`datetime64[ns]` values as integers (`Int`).  `df.sort_values('Date')` is called
with the default `kind='quicksort'` (numpy introsort); pandas/numpy document
that this sort is NOT guaranteed stable, so the sorting step is modelled by its
library contract: a relation admitting every chronologically sorted permutation
of the rows.
-/

/-- One element of the list returned by
`processed_col.reduceColumns(ee.Reducer.toList(2), ['system:time_start', 'NDVI_mean'])`
before the `notNull` filter: a `system:time_start` epoch-millisecond timestamp
paired with a nullable `NDVI_mean` scalar. -/
structure RawSample where
  timestamp_ms : Int
  value : Option ℚ
deriving DecidableEq, Repr

/-- Lines 141–144 of `src/app.py`: `.filter(ee.Filter.notNull(['NDVI_mean']))`
followed by projection to `[system:time_start, NDVI_mean]` pairs.  This is the
value bound to `raw_data` in the script: exactly the non-null records, in
collection order, as (timestamp, value) pairs. -/
def rawDataOf (raw : List RawSample) : List (Int × ℚ) :=
  raw.filterMap fun r => r.value.map fun v => (r.timestamp_ms, v)

/-- Line 150 of `src/app.py`: `pd.to_datetime(df['Timestamp'], unit='ms')`.
An integer interpreted as milliseconds since the Unix epoch becomes a
`datetime64[ns]` value, i.e. `ms * 10^6` nanoseconds since the epoch. -/
def to_datetime (ms : Int) : Int := ms * 1000000

/-- One row of the dataframe built on lines 149–150: the `Timestamp`, `NDVI`
and derived `Date` columns. -/
structure Row where
  timestamp : Int
  ndvi : ℚ
  date : Int
deriving DecidableEq, Repr

/-- Lines 149–150: `pd.DataFrame(raw_data, columns=['Timestamp', 'NDVI'])`
plus the derived `Date` column. -/
def mkDataFrame (raw_data : List (Int × ℚ)) : List Row :=
  raw_data.map fun p => { timestamp := p.1, ndvi := p.2, date := to_datetime p.1 }

/-- The rows are in weakly increasing `Date` order. -/
def SortedByDate (df : List Row) : Prop :=
  df.Chain' fun a b => a.date ≤ b.date

instance sortedByDateDec : (df : List Row) → Decidable (SortedByDate df)
  | [] => isTrue List.chain'_nil
  | [a] => isTrue (List.chain'_singleton a)
  | a :: b :: t =>
    haveI : Decidable (SortedByDate (b :: t)) := sortedByDateDec (b :: t)
    decidable_of_iff (a.date ≤ b.date ∧ SortedByDate (b :: t))
      (by simp [SortedByDate, List.chain'_cons])

/-- Line 151: `df = df.sort_values('Date')`.  `sort_values` is called with the
default `kind='quicksort'` (numpy introsort), which pandas and numpy document
as not stable; its contract is only that the result is a permutation of the
rows that is sorted by the `Date` column.  The step is therefore modelled as a
relation admitting every sorted permutation. -/
def SortValuesRel (df df' : List Row) : Prop :=
  df.Perm df' ∧ SortedByDate df'

instance (df df' : List Row) : Decidable (SortValuesRel df df') :=
  inferInstanceAs (Decidable (_ ∧ _))

/-- Outcome of the build step (lines 146–151): either the no-data warning
branch (`st.warning(...)`, after which no chart is drawn) or the sorted
dataframe handed to the chart-drawing block. -/
inductive BuildResult where
  | emptySignal : BuildResult
  | series : List Row → BuildResult
deriving DecidableEq, Repr

/-- Lines 141–151 of `src/app.py` as one relation from the raw remote records
to the build outcome: `raw_data` is the non-null records; `if not raw_data`
the warning branch is taken; otherwise the dataframe is built and sorted by
`Date` (sorting modelled by its contract, `SortValuesRel`). -/
def BuildRel (raw : List RawSample) : BuildResult → Prop
  | BuildResult.emptySignal => rawDataOf raw = []
  | BuildResult.series df =>
      rawDataOf raw ≠ [] ∧ SortValuesRel (mkDataFrame (rawDataOf raw)) df

instance (raw : List RawSample) (out : BuildResult) : Decidable (BuildRel raw out) := by
  cases out with
  | emptySignal => exact inferInstanceAs (Decidable (_ = _))
  | series df => exact inferInstanceAs (Decidable (_ ∧ _))

/-- Sorting the rows by the raw `Timestamp` column instead of `Date`:
a permutation that is weakly increasing in `timestamp`.  Used to state that
sorting on the derived `Date` column coincides with sorting on the raw
timestamps. -/
def SortByTimestampRel (df df' : List Row) : Prop :=
  df.Perm df' ∧ df'.Chain' fun a b => a.timestamp ≤ b.timestamp

/-! Chart rendering (lines 164–228 of `src/app.py`).  The matplotlib global
configuration touched by the script is threaded explicitly: `render` takes the
`plt.rcParams` state before the call and returns the state after it together
with the figure contents. -/

/-- The slice of the process-global `plt.rcParams` that the script reads or
writes.  `font_family` and `font_sans_serif` are set once at import time
(lines 18–19) and never touched inside the analysis block; the remaining
fields are overwritten by `plt.rcParams.update({...})` on lines 178–186. -/
structure RcParams where
  text_color : String
  axes_labelcolor : String
  axes_edgecolor : String
  xtick_color : String
  ytick_color : String
  axes_labelweight : String
  axes_linewidth : ℚ
  font_family : String
  font_sans_serif : List String
deriving DecidableEq, Repr

/-- Lines 178–186: `plt.rcParams.update({...})` with the seven fixed entries of
the literal dictionary; every key not listed in the dictionary keeps its
previous value. -/
def rcParamsUpdate (rc : RcParams) : RcParams :=
  { rc with
    text_color := "black"
    axes_labelcolor := "black"
    axes_edgecolor := "black"
    xtick_color := "black"
    ytick_color := "black"
    axes_labelweight := "bold"
    axes_linewidth := 2 }

/-- The contents of the figure produced by the drawing block: the data trace
(line 191), the threshold line (lines 194–195), title and axis labels
(lines 198–203), the legend branch taken (lines 213–218), the fixed vertical
range (line 220) and the grid flag (line 221). -/
structure Chart where
  trace : List (Int × ℚ)
  trace_color : String
  trace_linewidth : ℚ
  marker_size : ℚ
  hline_y : ℚ
  hline_label : String
  title : String
  ylabel : String
  xlabel : String
  legend_jp : Bool
  ylim : ℚ × ℚ
  grid : Bool
deriving DecidableEq, Repr

/-- Line 198, localized branch: the f-string
`f"NDVI時系列推移 (過去 {analysis_years} 年間)"`. -/
def jpTitle (analysis_years : Nat) : String :=
  "NDVI時系列推移 (過去 " ++ toString analysis_years ++ " 年間)"

/-- Lines 176–228 of `src/app.py`.  `jp_font` is the one-shot font decision of
lines 164–174: `true` when `fonts/NotoSansJP-Regular.ttf` exists and loads,
`false` otherwise (then the `jp_font` Python variable stays `None`).  The
result pairs the `plt.rcParams` state after the call with the figure
contents; `fig.savefig` on line 228 writes into an in-memory `BytesIO`
buffer, not to a file. -/
def render (rc : RcParams) (df : List Row) (analysis_years : Nat) (jp_font : Bool) :
    RcParams × Chart :=
  (rcParamsUpdate rc,
   { trace := df.map fun r => (r.date, r.ndvi)
     trace_color := "#2ecc71"
     trace_linewidth := 5/2
     marker_size := 6
     hline_y := 3/10
     hline_label := if jp_font then "閾値 (0.3)" else "Threshold (0.3)"
     title := if jp_font then jpTitle analysis_years else "NDVI Time Series"
     ylabel := "NDVI"
     xlabel := if jp_font then "日付" else "Date"
     legend_jp := jp_font
     ylim := (-(1/10), 1)
     grid := true })

/-- Substring test on character lists: `hasSeg pat s` holds exactly when `pat`
occurs contiguously inside `s`.  Used to state that a rendered title contains
the text of `analysis_years`. -/
def begMatch : List Char → List Char → Bool
  | [], _ => true
  | _ :: _, [] => false
  | a :: as, b :: bs => a = b && begMatch as bs

def hasSeg (pat : List Char) : List Char → Bool
  | [] => begMatch pat []
  | b :: bs => begMatch pat (b :: bs) || hasSeg pat bs

/-- `s` contains `pat` as a contiguous substring. -/
def strContains (s pat : String) : Prop := hasSeg pat.data s.data = true

instance (s pat : String) : Decidable (strContains s pat) :=
  inferInstanceAs (Decidable (_ = _))

/-! Shared concrete inputs used by the witness theorems below.  `rcInit` is the
`plt.rcParams` state after the import-time assignments on lines 18–19 of
`src/app.py` (the remaining fields hold matplotlib's stock defaults). -/

def sampleRaw : List RawSample :=
  [⟨1700000000000, some 1⟩, ⟨1699000000000, none⟩, ⟨1701000000000, some 3⟩]

def sampleDf : List Row :=
  [⟨1700000000000, 1, 1700000000000000000⟩, ⟨1701000000000, 3, 1701000000000000000⟩]

def rcInit : RcParams :=
  { text_color := "black"
    axes_labelcolor := "black"
    axes_edgecolor := "black"
    xtick_color := "black"
    ytick_color := "black"
    axes_labelweight := "normal"
    axes_linewidth := 4/5
    font_family := "sans-serif"
    font_sans_serif := ["DejaVu Sans", "Liberation Sans", "Bitstream Vera Sans", "sans-serif"] }

/-! Helper lemmas about the dataframe construction. -/

lemma mkDataFrame_map_pair (l : List (Int × ℚ)) :
    (mkDataFrame l).map (fun r => (r.timestamp, r.ndvi)) = l := by
  simp [mkDataFrame, List.map_map, Function.comp_def]

lemma date_eq_of_mem_mkDataFrame {l : List (Int × ℚ)} {r : Row}
    (h : r ∈ mkDataFrame l) : r.date = to_datetime r.timestamp := by
  rcases List.mem_map.mp h with ⟨p, -, rfl⟩
  rfl

/-- C1: for every input list of raw (timestamp, nullable value) pairs, the
output of the build pipeline consists, as a multiset of (timestamp, value)
pairs, of exactly the non-null entries: values travel with their own
timestamps, duplicates are kept with multiplicity, and every value (also one
outside [-1, 1]) passes through unmodified; in addition every output row's
`Date` is exactly the epoch-millisecond conversion of its own timestamp (no
clamping, rejection or interpolation site exists between lines 141 and 151 of
`src/app.py`). -/
theorem build_keeps_exactly_nonnull (raw : List RawSample) (df : List Row)
    (h : BuildRel raw (BuildResult.series df)) :
    (df.map fun r => (r.timestamp, r.ndvi)).Perm (rawDataOf raw) ∧
      ∀ r ∈ df, r.date = to_datetime r.timestamp := by
  obtain ⟨-, hperm, -⟩ := h
  constructor
  · have := (hperm.symm.map fun r => (r.timestamp, r.ndvi))
    rwa [mkDataFrame_map_pair] at this
  · intro r hr
    exact date_eq_of_mem_mkDataFrame (hperm.symm.mem_iff.mp hr)

theorem build_keeps_exactly_nonnull_witness :
    (sampleDf.map fun r => (r.timestamp, r.ndvi)).Perm (rawDataOf sampleRaw) :=
  (build_keeps_exactly_nonnull sampleRaw sampleDf (by decide)).1

/-- C2: every series produced by the build pipeline is chronologically
ascending: for every adjacent pair of rows, the earlier row's `Date` is at
most the later row's `Date`. -/
theorem build_output_sorted (raw : List RawSample) (df : List Row)
    (h : BuildRel raw (BuildResult.series df)) :
    ∀ (i : ℕ) (hi : i + 1 < df.length),
      (df.get ⟨i, by omega⟩).date ≤ (df.get ⟨i + 1, hi⟩).date := by
  intro i hi
  exact List.chain'_iff_get.mp h.2.2 i (by omega)

theorem build_output_sorted_witness :
    (sampleDf.get ⟨0, by decide⟩).date ≤ (sampleDf.get ⟨1, by decide⟩).date :=
  build_output_sorted sampleRaw sampleDf (by decide) 0 (by decide)

/-- C3: the build step takes the no-data branch (the `st.warning` on line 147,
after which no dataframe is built and no chart is drawn) exactly when the list
of non-null samples is empty — in particular for the empty input and for an
all-null input — and a series branch outcome is never an empty list. -/
theorem build_empty_contract (raw : List RawSample) :
    (BuildRel raw BuildResult.emptySignal ↔ rawDataOf raw = []) ∧
      ∀ df : List Row, BuildRel raw (BuildResult.series df) → df ≠ [] := by
  refine ⟨Iff.rfl, fun df h hdf => ?_⟩
  obtain ⟨hne, hperm, -⟩ := h
  apply hne
  have hlen := hperm.length_eq
  rw [hdf] at hlen
  simpa [mkDataFrame] using List.length_eq_zero.mp hlen

theorem build_empty_contract_witness :
    BuildRel ([] : List RawSample) BuildResult.emptySignal ∧
      BuildRel [⟨1700000000000, none⟩] BuildResult.emptySignal ∧
      sampleDf ≠ [] :=
  ⟨(build_empty_contract []).1.mpr (by decide),
   (build_empty_contract [⟨1700000000000, none⟩]).1.mpr (by decide),
   (build_empty_contract sampleRaw).2 sampleDf (by decide)⟩

/-! C10: the millisecond-to-nanosecond conversion behind `pd.to_datetime(...,
unit='ms')` is strictly monotone and injective, so sorting on the derived
`Date` column is the same as sorting on the raw `Timestamp` column. -/

lemma chain_date_iff_chain_timestamp :
    ∀ l : List Row, (∀ r ∈ l, r.date = to_datetime r.timestamp) →
      ((l.Chain' fun a b => a.date ≤ b.date) ↔
        l.Chain' fun a b => a.timestamp ≤ b.timestamp)
  | [], _ => by simp
  | [a], _ => by simp
  | a :: b :: t, hd => by
    rw [List.chain'_cons, List.chain'_cons,
      chain_date_iff_chain_timestamp (b :: t) fun r hr => hd r (List.mem_cons_of_mem a hr),
      hd a (List.mem_cons_self a (b :: t)),
      hd b (List.mem_cons_of_mem a (List.mem_cons_self b t))]
    unfold to_datetime
    constructor
    · exact fun h => ⟨le_of_mul_le_mul_right h.1 (by norm_num), h.2⟩
    · exact fun h => ⟨mul_le_mul_of_nonneg_right h.1 (by norm_num), h.2⟩

/-- C10: `to_datetime` (the embedding of `pd.to_datetime(unit='ms')`) is
strictly monotone and injective, and consequently, on any dataframe whose
`Date` column was derived from its `Timestamp` column, sorting by `Date`
admits exactly the same outputs as sorting by the raw timestamp. -/
theorem to_datetime_monotone_sort_coincides :
    StrictMono to_datetime ∧ Function.Injective to_datetime ∧
      ∀ df df' : List Row, (∀ r ∈ df, r.date = to_datetime r.timestamp) →
        (SortValuesRel df df' ↔ SortByTimestampRel df df') := by
  have hmono : StrictMono to_datetime := fun a b h => by
    simpa [to_datetime] using mul_lt_mul_of_pos_right h (show (0 : Int) < 1000000 by norm_num)
  refine ⟨hmono, hmono.injective, fun df df' hd => ?_⟩
  have hd' : ∀ h : df.Perm df', ∀ r ∈ df', r.date = to_datetime r.timestamp :=
    fun h r hr => hd r (h.symm.mem_iff.mp hr)
  constructor
  · rintro ⟨hp, hs⟩
    exact ⟨hp, (chain_date_iff_chain_timestamp df' (hd' hp)).mp hs⟩
  · rintro ⟨hp, hs⟩
    exact ⟨hp, (chain_date_iff_chain_timestamp df' (hd' hp)).mpr hs⟩

theorem to_datetime_monotone_sort_coincides_witness :
    SortByTimestampRel (mkDataFrame (rawDataOf sampleRaw)) sampleDf :=
  (to_datetime_monotone_sort_coincides.2.2 (mkDataFrame (rawDataOf sampleRaw)) sampleDf
    (by decide)).mp (by decide)

/-- C4: for every non-empty series handed to the drawing block, the vertical
axis range set by `ax.set_ylim(-0.1, 1.0)` on line 220 is exactly
[-0.1, 1.0], whatever the data's actual minimum and maximum. -/
theorem render_ylim_fixed (rc : RcParams) (df : List Row) (analysis_years : Nat)
    (jp_font : Bool) (hne : df ≠ []) :
    ((render rc df analysis_years jp_font).2).ylim = (-(1/10), 1) := rfl

theorem render_ylim_fixed_witness :
    ((render rcInit sampleDf 3 true).2).ylim = (-(1/10), 1) :=
  render_ylim_fixed rcInit sampleDf 3 true (by decide)

/-- C7: the chart geometry is deterministic — two renders of the same series
with the same `analysis_years` (the threshold is the fixed constant 0.3 on
line 194) agree on the axis limits, on every trace point coordinate and on the
reference-line position, even if the ambient `plt.rcParams` state or the font
availability differ between the two calls. -/
theorem render_geometry_deterministic (rc₁ rc₂ : RcParams) (df : List Row)
    (analysis_years : Nat) (jp₁ jp₂ : Bool) :
    ((render rc₁ df analysis_years jp₁).2).ylim
        = ((render rc₂ df analysis_years jp₂).2).ylim ∧
      ((render rc₁ df analysis_years jp₁).2).trace
        = ((render rc₂ df analysis_years jp₂).2).trace ∧
      ((render rc₁ df analysis_years jp₁).2).hline_y
        = ((render rc₂ df analysis_years jp₂).2).hline_y :=
  ⟨rfl, rfl, rfl⟩

/-- C8: within one render call the script decides `jp_font` once (lines
164–174) and every label site branches on that same value, so the labels of a
chart are either all localized (title `jpTitle`, x-label `日付`, legend
`閾値 (0.3)`) or all fallback (title `NDVI Time Series`, x-label `Date`,
legend `Threshold (0.3)`) — never a mix of the two scripts. -/
theorem render_labels_single_script (rc : RcParams) (df : List Row)
    (analysis_years : Nat) (jp_font : Bool) :
    (((render rc df analysis_years jp_font).2).title = jpTitle analysis_years ∧
        ((render rc df analysis_years jp_font).2).xlabel = "日付" ∧
        ((render rc df analysis_years jp_font).2).hline_label = "閾値 (0.3)" ∧
        ((render rc df analysis_years jp_font).2).legend_jp = true) ∨
      (((render rc df analysis_years jp_font).2).title = "NDVI Time Series" ∧
        ((render rc df analysis_years jp_font).2).xlabel = "Date" ∧
        ((render rc df analysis_years jp_font).2).hline_label = "Threshold (0.3)" ∧
        ((render rc df analysis_years jp_font).2).legend_jp = false) := by
  cases jp_font
  · right; exact ⟨rfl, rfl, rfl, rfl⟩
  · left; exact ⟨rfl, rfl, rfl, rfl⟩

/-! C6: the chart title.  The localized branch of line 198 interpolates
`analysis_years` into the title, but the fallback branch is the fixed string
`"NDVI Time Series"`, which contains no year count at all. -/

lemma begMatch_append (m r : List Char) : begMatch m (m ++ r) = true := by
  induction m with
  | nil => rfl
  | cons a as ih => simp [begMatch, ih]

lemma hasSeg_of_begMatch {m s : List Char} (h : begMatch m s = true) :
    hasSeg m s = true := by
  cases s with
  | nil => exact h
  | cons b bs => simp [hasSeg, h]

lemma hasSeg_of_parts (l m r : List Char) : hasSeg m (l ++ (m ++ r)) = true := by
  induction l with
  | nil => exact hasSeg_of_begMatch (begMatch_append m r)
  | cons a as ih => simp [hasSeg, ih]

/-- C6 counterexample: a render call with the Japanese font unavailable (the
repository ships no `fonts/` directory, so `os.path.exists` on line 168 is
false and `jp_font` stays `None`) and `analysis_years = 3` titles the chart
with the fixed string `"NDVI Time Series"`, which does not contain `"3"`: the
claim that every render call's title includes the `years_back` value is false
on the fallback branch. -/
theorem fallback_title_omits_years :
    ((render rcInit sampleDf 3 false).2).title = "NDVI Time Series" ∧
      ¬ strContains ((render rcInit sampleDf 3 false).2).title "3" := by
  decide

/-- C6 amended: only when the localized font was loaded (`jp_font` true) does
the chart title contain the text of the `analysis_years` value; the fallback
branch uses the fixed title `"NDVI Time Series"` without it. -/
theorem jp_title_contains_years (rc : RcParams) (df : List Row)
    (analysis_years : Nat) (jp_font : Bool) (h : jp_font = true) :
    strContains ((render rc df analysis_years jp_font).2).title
      (toString analysis_years) := by
  subst h
  show hasSeg (toString analysis_years).data (jpTitle analysis_years).data = true
  have : (jpTitle analysis_years).data
      = "NDVI時系列推移 (過去 ".data ++ ((toString analysis_years).data ++ " 年間)".data) := by
    simp [jpTitle]
  rw [this]
  exact hasSeg_of_parts _ _ _

theorem jp_title_contains_years_witness :
    strContains ((render rcInit sampleDf 3 true).2).title (toString 3) :=
  jp_title_contains_years rcInit sampleDf 3 true rfl

/-! C9: side effects of the drawing block.  `fig.savefig` (line 228) writes
into an in-memory `BytesIO` buffer, not to persistent storage, but
`plt.rcParams.update` (lines 178–186) mutates the process-global matplotlib
configuration and nothing ever restores it. -/

/-- C9 counterexample: starting from the module-initialization `plt.rcParams`
state (`rcInit`), one render call leaves the global configuration changed
(`axes.labelweight` becomes `"bold"`, `axes.linewidth` becomes 2.0, …), so
the claim that the renderer leaves all state outside the returned artifact —
including process-global configuration — unchanged is false. -/
theorem render_mutates_global_rcparams :
    (render rcInit sampleDf 3 true).1 ≠ rcInit := by decide

/-- C9 amended: the renderer writes no persistent storage (the PNG goes into
the returned in-memory buffer) and the only external state it changes is the
process-global matplotlib configuration: the seven keys of the
`plt.rcParams.update` dictionary are set to fixed constants, and every other
`rcParams` entry — in particular the import-time font configuration — is left
unchanged. -/
theorem render_touches_only_the_seven_rcparams_keys (rc : RcParams)
    (df : List Row) (analysis_years : Nat) (jp_font : Bool) :
    ((render rc df analysis_years jp_font).1).text_color = "black" ∧
      ((render rc df analysis_years jp_font).1).axes_labelcolor = "black" ∧
      ((render rc df analysis_years jp_font).1).axes_edgecolor = "black" ∧
      ((render rc df analysis_years jp_font).1).xtick_color = "black" ∧
      ((render rc df analysis_years jp_font).1).ytick_color = "black" ∧
      ((render rc df analysis_years jp_font).1).axes_labelweight = "bold" ∧
      ((render rc df analysis_years jp_font).1).axes_linewidth = 2 ∧
      ((render rc df analysis_years jp_font).1).font_family = rc.font_family ∧
      ((render rc df analysis_years jp_font).1).font_sans_serif = rc.font_sans_serif :=
  ⟨rfl, rfl, rfl, rfl, rfl, rfl, rfl, rfl, rfl⟩

/-! C5: stability of the sort.  `df.sort_values('Date')` on line 151 uses the
default `kind='quicksort'` (numpy introsort), which both pandas and numpy
document as NOT stable — numpy's introsort really does permute equal keys
once a partition step runs (its insertion-sort cutoff is 16 elements) — so
the code does not guarantee that ties keep their input order.  What does
hold: the output is a chronologically sorted permutation of the valid rows,
and when all timestamps are pairwise distinct that determines the output
uniquely. -/

/-- C5 counterexample: for the input holding A = (t, 1) before B = (t, 3)
with the same timestamp t, the reversed dataframe — B's row before A's row —
is an admissible outcome of the build pipeline (it is a chronologically
sorted permutation of the rows, which is all `sort_values(kind='quicksort')`
guarantees), so the claim that the output always preserves A before B is
false. -/
theorem tie_order_not_guaranteed :
    BuildRel [⟨1700000000000, some 1⟩, ⟨1700000000000, some 3⟩]
      (BuildResult.series
        [⟨1700000000000, 3, 1700000000000000000⟩,
         ⟨1700000000000, 1, 1700000000000000000⟩]) ∧
      rawDataOf [⟨1700000000000, some 1⟩, ⟨1700000000000, some 3⟩]
        = [(1700000000000, 1), (1700000000000, 3)] := by decide

lemma sorted_perm_eq_of_nodup_dates :
    ∀ l₁ l₂ : List Row, l₁.Perm l₂ → SortedByDate l₁ → SortedByDate l₂ →
      (l₁.map Row.date).Nodup → l₁ = l₂ := by
  haveI : IsTrans Row fun a b => a.date ≤ b.date := ⟨fun _ _ _ hab hbc => le_trans hab hbc⟩
  intro l₁
  induction l₁ with
  | nil =>
    intro l₂ hp _ _ _
    exact hp.symm.eq_nil.symm
  | cons a t ih =>
    intro l₂ hp hs₁ hs₂ hnd
    cases l₂ with
    | nil => exact (List.cons_ne_nil a t hp.eq_nil).elim
    | cons b t₂ =>
      rw [SortedByDate, List.chain'_iff_pairwise] at hs₁ hs₂
      obtain ⟨ha, ht₁⟩ := List.pairwise_cons.mp hs₁
      obtain ⟨hb, ht₂⟩ := List.pairwise_cons.mp hs₂
      rw [List.map_cons, List.nodup_cons] at hnd
      by_cases hba : b = a
      · subst hba
        have ht : t.Perm t₂ := hp.cons_inv
        rw [ih t₂ ht (by rw [SortedByDate, List.chain'_iff_pairwise]; exact ht₁)
          (by rw [SortedByDate, List.chain'_iff_pairwise]; exact ht₂) hnd.2]
      · have hbt : b ∈ t := by
          rcases List.mem_cons.mp (hp.mem_iff.mpr (List.mem_cons_self b t₂)) with h | h
          · exact (hba h).elim
          · exact h
        have hat₂ : a ∈ t₂ := by
          rcases List.mem_cons.mp (hp.mem_iff.mp (List.mem_cons_self a t)) with h | h
          · exact ((hba h.symm).elim)
          · exact h
        have hdate : a.date = b.date := le_antisymm (ha b hbt) (hb a hat₂)
        exact (hnd.1 (hdate ▸ List.mem_map_of_mem Row.date hbt)).elim

/-- C5 amended: the build pipeline guarantees only a chronologically sorted
permutation of the valid rows, not stability of ties (quicksort is not a
stable sort); when the valid timestamps are pairwise distinct the sorted
output is uniquely determined, so any two admissible outcomes coincide. -/
theorem build_output_unique_of_distinct_timestamps (raw : List RawSample)
    (df₁ df₂ : List Row) (hnd : ((rawDataOf raw).map Prod.fst).Nodup)
    (h₁ : BuildRel raw (BuildResult.series df₁))
    (h₂ : BuildRel raw (BuildResult.series df₂)) : df₁ = df₂ := by
  obtain ⟨-, hperm₁, hsort₁⟩ := h₁
  obtain ⟨-, hperm₂, hsort₂⟩ := h₂
  have hmapdate : (mkDataFrame (rawDataOf raw)).map Row.date
      = ((rawDataOf raw).map Prod.fst).map to_datetime := by
    simp [mkDataFrame, List.map_map, Function.comp_def]
  have hnodup : ((mkDataFrame (rawDataOf raw)).map Row.date).Nodup := by
    rw [hmapdate]
    exact hnd.map fun x y h => by simpa [to_datetime] using h
  exact sorted_perm_eq_of_nodup_dates df₁ df₂ (hperm₁.symm.trans hperm₂) hsort₁ hsort₂
    ((hperm₁.map Row.date).nodup_iff.mp hnodup)

theorem build_output_unique_of_distinct_timestamps_witness :
    sampleDf = sampleDf :=
  build_output_unique_of_distinct_timestamps sampleRaw sampleDf sampleDf
    (by decide) (by decide) (by decide)
